import Mathlib

/-!
Verification of the ROTOM_ESC_GUI serial-communication core.

The Python sources embedded here are `src/read.py`, `src/gui_ai.py`,
`src/realtime_gui.py` and `src/serial_instance.py`.  Python dictionaries
holding configuration blobs are modelled as association lists; the
aliasing behaviour of dictionaries (deep copies versus shared references)
is modelled with an explicit heap of configuration cells.  The frame
codec (`pyvesc.protocol.packet.codec.unframe`) is not part of the
repository, so it is modelled from the specification of the Frame Codec
component.
-/

/-- A configuration blob: Python dict from field names to values
(`src/read.py` parses configs into dicts; values abstracted to `Nat`). -/
abbrev Config := List (String × Nat)

/-- Python `d.get(key)`: first binding of the key, if any. -/
def Config.get : Config → String → Option Nat
  | [], _ => none
  | (k, v) :: rest, key => if k = key then some v else Config.get rest key

/-- Python `d.get(key, default)`. -/
def Config.getD (c : Config) (key : String) (d : Nat) : Nat :=
  (c.get key).getD d

/-- Python `d[key] = v`: replace the binding if present, else append. -/
def Config.set : Config → String → Nat → Config
  | [], key, v => [(key, v)]
  | (k, w) :: rest, key, v =>
      if k = key then (key, v) :: rest else (k, w) :: Config.set rest key v

/-- Python `d.setdefault(key, v)` (effect on the dict): insert the
binding only when the key is missing. -/
def Config.setdefault (c : Config) (key : String) (v : Nat) : Config :=
  if (c.get key).isSome then c else c ++ [(key, v)]

/-- Truthiness of a Python dict-or-None value: `None` and `{}` are falsy. -/
def optTruthy (o : Option Config) : Bool :=
  match o with
  | none => false
  | some c => !c.isEmpty

/-! ## Heap of configuration cells

Python configuration dicts are mutable and passed by reference.  The
heap stores the dict contents; references are indices.  `copy.deepcopy`
allocates a fresh cell; in-place updates (`setdefault`, item assignment)
mutate one cell. -/

structure Heap where
  cells : List Config
deriving DecidableEq

/-- Dereference a cell (all references used by the program are valid;
the default is never reached on the modelled executions). -/
def Heap.getCell (h : Heap) (r : Nat) : Config :=
  (h.cells.get? r).getD []

/-- In-place mutation of one cell. -/
def Heap.setCell (h : Heap) (r : Nat) (c : Config) : Heap :=
  ⟨h.cells.set r c⟩

/-- Python `copy.deepcopy`: allocate a fresh cell holding a copy; returns the
new heap and the fresh reference. -/
def Heap.alloc (h : Heap) (c : Config) : Heap × Nat :=
  (⟨h.cells ++ [c]⟩, h.cells.length)

/-- Python `dict.setdefault` applied through a reference. -/
def setdefaultRef (h : Heap) (r : Nat) (key : String) (v : Nat) : Heap :=
  h.setCell r ((h.getCell r).setdefault key v)

/-- Python `dict[key] = v` applied through a reference. -/
def setItemRef (h : Heap) (r : Nat) (key : String) (v : Nat) : Heap :=
  h.setCell r ((h.getCell r).set key v)

/-! ## Frame codec

Modelled from the spec: the Frame Codec component
(`pyvesc.protocol.packet.codec` is not part of the repository).  A frame
is `[start marker][length][payload][checksum][end marker]`; `unframe`
reports a complete checksum-verified payload with the consumed byte
count, or that more data is needed, or that the data at the head of the
buffer is corrupt (the caller then discards at least one byte).  The
spec allows any consistent checksum; a mod-256 byte sum is used. -/

def startMarker : Nat := 2

def endMarker : Nat := 3

def checksum (payload : List Nat) : Nat := payload.sum % 256

/-- Modelled from the spec: `encode`, framing a payload. -/
def frame (payload : List Nat) : List Nat :=
  startMarker :: payload.length :: payload ++ [checksum payload, endMarker]

inductive UnframeResult where
  | complete (payload : List Nat) (consumed : Nat)
  | incomplete
  | corrupt
deriving DecidableEq

/-- Modelled from the spec: streaming `unframe` on a byte buffer. -/
def unframe (buffer : List Nat) : UnframeResult :=
  match buffer with
  | [] => .incomplete
  | b :: rest =>
      if b ≠ startMarker then .corrupt
      else
        match rest with
        | [] => .incomplete
        | len :: rest2 =>
            if rest2.length < len + 2 then .incomplete
            else
              if rest2.get? len = some (checksum (rest2.take len)) ∧
                 rest2.get? (len + 1) = some endMarker then
                .complete (rest2.take len) (len + 4)
              else .corrupt

/-! ## Configuration response read loop (`src/read.py`, `_read_config_response`)

The inner `while True` loop: repeatedly `unframe` the buffer; on a
complete payload whose first byte is the expected command id, parse it
and return the parsed configuration when the parser produces a
(non-empty) dict, otherwise drop the consumed bytes and continue; on a
complete payload with a different id drop the consumed bytes and
continue; when more data is needed break back to the outer loop
(`NeedMoreData` or a falsy payload); on corrupt data (`ValueError`)
discard one byte and retry if the buffer is non-empty, else break.  One
unit of fuel is one loop iteration. -/

inductive LoopOutcome where
  | found (conf : Config)
  | needMore (leftover : List Nat)
  | outOfFuel
deriving DecidableEq

def readLoopFuel (parse : List Nat → Option Config) (expectedId : Nat) :
    Nat → List Nat → LoopOutcome
  | 0, _ => .outOfFuel
  | fuel + 1, buffer =>
      match unframe buffer with
      | .complete payload consumed =>
          if payload ≠ [] then
            if payload.headD 0 = expectedId then
              match parse (payload.drop 1) with
              | some conf =>
                  if conf ≠ [] then .found conf
                  else readLoopFuel parse expectedId fuel (buffer.drop consumed)
              | none => readLoopFuel parse expectedId fuel (buffer.drop consumed)
            else readLoopFuel parse expectedId fuel (buffer.drop consumed)
          else .needMore buffer
      | .incomplete => .needMore buffer
      | .corrupt =>
          if buffer.isEmpty then .needMore buffer
          else readLoopFuel parse expectedId fuel (buffer.drop 1)

/-! ## Outer loop of `_read_config_response` (`src/read.py` lines 104-182)

The function clears the input buffer, writes the request, then loops
until the overall deadline: read the available bytes, run the inner
unframe loop, return the parsed configuration on a match.  Time is
modelled by the list `chunks`: one entry per outer iteration, holding
the bytes that arrived during that iteration; the list ending is the
deadline elapsing, after which the function returns `None`.  Every
transport operation performed is recorded in the returned trace. -/

inductive TOp where
  | clearInput
  | writeReq (id : Nat)
  | readChunk (n : Nat)
  | closePort
deriving DecidableEq

def readConfigLoop (parse : List Nat → Option Config) (expectedId : Nat) :
    List (List Nat) → List Nat → Option Config × List TOp
  | [], _ => (none, [])
  | chunk :: rest, buffer =>
      let buf := buffer ++ chunk
      let ops := if chunk.isEmpty then ([] : List TOp) else [TOp.readChunk chunk.length]
      match readLoopFuel parse expectedId (buf.length + 1) buf with
      | .found c => (some c, ops)
      | .needMore leftover =>
          let r := readConfigLoop parse expectedId rest leftover
          (r.1, ops ++ r.2)
      | .outOfFuel => (none, ops)

/-- Function `_read_config_response`: clear the input buffer, write the request,
then run the accumulate/unframe loop until a match or the deadline. -/
def readConfigResponse (parse : List Nat → Option Config) (expectedId : Nat)
    (chunks : List (List Nat)) : Option Config × List TOp :=
  let r := readConfigLoop parse expectedId chunks []
  (r.1, TOp.clearInput :: TOp.writeReq expectedId :: r.2)

/-! ## Background poller cycle

One active (non-paused) iteration of `DataReader.run`.  Connection
handles are identifiers; the outcome of `read.get_realtime_data` on the
open connection is an oracle.  Every externally visible action of the
iteration is recorded as an event. -/

inductive PollEvent where
  | telemetryRequest (h : Nat)
  | dataOut
  | errorMsg (s : String)
  | closePort (h : Nat)
deriving DecidableEq

inductive PollOutcome where
  | gotValues
  | noData
  | serialExn
  | otherExn
deriving DecidableEq

/-- Body of `DataReader.run`, `src/gui_ai.py` lines 72-97: on a serial (or
other) exception the reader emits one error message and drops its
reference to the connection without closing the port. -/
def guiAiPollCycle (conn : Option Nat) (connOpen : Bool) (outcome : PollOutcome) :
    Option Nat × List PollEvent :=
  match conn with
  | none => (none, [])
  | some h =>
      if connOpen then
        match outcome with
        | .gotValues => (some h, [.telemetryRequest h, .dataOut])
        | .noData => (some h, [.telemetryRequest h])
        | .serialExn => (none, [.telemetryRequest h, .errorMsg "Serial Error(R)"])
        | .otherExn => (none, [.telemetryRequest h, .errorMsg "DataReader Error"])
      else (some h, [])

/-- Body of `DataReader.run`, `src/realtime_gui.py` lines 40-79: on a
serial (or other) exception the reader emits an error message, closes
the port itself via `read.close_serial_port`, emits a second
"Disconnected" message, and drops its reference. -/
def realtimePollCycle (conn : Option Nat) (connOpen : Bool) (outcome : PollOutcome) :
    Option Nat × List PollEvent :=
  match conn with
  | none => (none, [])
  | some h =>
      if connOpen then
        match outcome with
        | .gotValues => (some h, [.telemetryRequest h, .dataOut])
        | .noData => (some h, [.telemetryRequest h])
        | .serialExn =>
            (none, [.telemetryRequest h, .errorMsg "Serial Error in Reader",
                    .closePort h, .errorMsg "Disconnected due to serial error."])
        | .otherExn =>
            (none, [.telemetryRequest h, .errorMsg "DataReader Error",
                    .closePort h, .errorMsg "Disconnected due to error."])
      else (some h, [])

/-- Count of error-channel notifications among the events. -/
def countErrorMsgs (events : List PollEvent) : Nat :=
  (events.filter fun e =>
    match e with
    | .errorMsg _ => true
    | _ => false).length

/-- Did the cycle issue any telemetry request? -/
def hasTelemetryRequest (events : List PollEvent) : Bool :=
  events.any fun e =>
    match e with
    | .telemetryRequest _ => true
    | _ => false

/-! ## Configuration read worker (`src/gui_ai.py`, `_read_configs_worker`)

Oracles: `paused` is the result of `datareader_pause_event.wait(0.5)`;
`serOpen` is `ser and ser.is_open`; `mcOut`/`appOut` are the outcomes of
`read.get_mc_configuration` / `read.get_app_configuration` (a parsed
dict, `None`, a `serial.SerialException`, or another exception).  The
worker records the command identifiers of the requests it issues. -/

inductive ReadOutcome where
  | parsed (c : Config)
  | noResponse
  | serialExn
  | otherExn
deriving DecidableEq

/-- Command identifiers of the configuration request messages
(`GetMcConfRequest` / `GetAppConfRequest`; the VESC message catalog is
not part of the repository, the ids are the standard COMM_GET_MCCONF and
COMM_GET_APPCONF values). -/
def mcConfReqId : Nat := 14

def appConfReqId : Nat := 17

structure ReadWorkerResult where
  requests : List Nat
  mc : Option Config
  app : Option Config
  err : Option String
  configReadInProgress : Bool
  pauseDatareader : Bool
deriving DecidableEq

/-- Worker `_read_configs_worker` (`src/gui_ai.py` lines 730-773). -/
def readConfigsWorker (paused serOpen : Bool) (mcOut appOut : ReadOutcome) :
    ReadWorkerResult :=
  let err0 : Option String :=
    if paused then none else some "Timeout waiting for DataReader to pause."
  let r : ReadWorkerResult :=
    match err0 with
    | some e =>
        { requests := [], mc := none, app := none, err := some e,
          configReadInProgress := true, pauseDatareader := true }
    | none =>
        if ¬ serOpen then
          { requests := [], mc := none, app := none,
            err := some "Connection lost before read.",
            configReadInProgress := true, pauseDatareader := true }
        else
          match mcOut with
          | .serialExn =>
              { requests := [mcConfReqId], mc := none, app := none,
                err := some "Serial Error reading configs",
                configReadInProgress := true, pauseDatareader := true }
          | .otherExn =>
              { requests := [mcConfReqId], mc := none, app := none,
                err := some "Unexpected error reading configs",
                configReadInProgress := true, pauseDatareader := true }
          | .noResponse =>
              { requests := [mcConfReqId], mc := none, app := none,
                err := some "Failed MC read.",
                configReadInProgress := true, pauseDatareader := true }
          | .parsed mcConf =>
              if mcConf.isEmpty then
                { requests := [mcConfReqId], mc := some mcConf, app := none,
                  err := some "Failed MC read.",
                  configReadInProgress := true, pauseDatareader := true }
              else
                match appOut with
                | .serialExn =>
                    { requests := [mcConfReqId, appConfReqId], mc := some mcConf,
                      app := none, err := some "Serial Error reading configs",
                      configReadInProgress := true, pauseDatareader := true }
                | .otherExn =>
                    { requests := [mcConfReqId, appConfReqId], mc := some mcConf,
                      app := none, err := some "Unexpected error reading configs",
                      configReadInProgress := true, pauseDatareader := true }
                | .noResponse =>
                    { requests := [mcConfReqId, appConfReqId], mc := some mcConf,
                      app := none, err := some "Failed APP read (after MC OK).",
                      configReadInProgress := true, pauseDatareader := true }
                | .parsed appConf =>
                    if appConf.isEmpty then
                      { requests := [mcConfReqId, appConfReqId], mc := some mcConf,
                        app := some appConf,
                        err := some "Failed APP read (after MC OK).",
                        configReadInProgress := true, pauseDatareader := true }
                    else
                      { requests := [mcConfReqId, appConfReqId], mc := some mcConf,
                        app := some appConf, err := none,
                        configReadInProgress := true, pauseDatareader := true }
  { r with configReadInProgress := false, pauseDatareader := false }

/-! ## Write pipeline (`src/gui_ai.py`)

`_get_mc_config_from_gui` / `_get_app_config_from_gui` build the blobs
to write, starting from a `copy.deepcopy` of the loaded configuration;
`_write_configs_worker` encodes and sends them.  Heap references model
the Python dict references: `loadedMc`/`loadedApp` are
`self.loaded_mc_config` / `self.loaded_app_config`. -/

/-- The inverse motor-type mapping `{"BLDC": 0, "FOC": 2, "DC": 3}` of
`_get_mc_config_from_gui`. -/
def motorTypeMapInv (s : String) : Option Nat :=
  if s = "BLDC" then some 0
  else if s = "FOC" then some 2
  else if s = "DC" then some 3
  else none

/-- Method `_get_mc_config_from_gui` (`src/gui_ai.py` lines 967-1027):
deep-copies the loaded config, applies the motor-type selection from the
option menu when it is a valid choice, then `setdefault`s the signature
from the loaded config.  Returns the new heap and a reference to the
blob, or `None` when no config is loaded. -/
def getMcConfigFromGui (h : Heap) (loadedMc : Option Nat) (guiSel : String) :
    Heap × Option Nat :=
  match loadedMc with
  | none => (h, none)
  | some r =>
      if (h.getCell r).isEmpty then (h, none)
      else
        let alloc := h.alloc (h.getCell r)
        let h1 := alloc.1
        let newRef := alloc.2
        let h2 :=
          match motorTypeMapInv guiSel with
          | some v => setItemRef h1 newRef "motor_type" v
          | none => h1
        let h3 := setdefaultRef h2 newRef "MCCONF_SIGNATURE"
          (Config.getD (h2.getCell r) "MCCONF_SIGNATURE" 0)
        (h3, some newRef)

/-- The configuration content built by `_get_mc_config_from_gui` out of
a loaded config `c0` (used to state its correctness lemma). -/
def mcGuiEdit (c0 : Config) (guiSel : String) : Config :=
  match motorTypeMapInv guiSel with
  | some v => c0.set "motor_type" v
  | none => c0

/-- The blob `_get_mc_config_from_gui` produces from loaded content `c0`. -/
def builtMcBlob (c0 : Config) (guiSel : String) : Config :=
  (mcGuiEdit c0 guiSel).setdefault "MCCONF_SIGNATURE"
    (Config.getD c0 "MCCONF_SIGNATURE" 0)

/-- The blob `_get_app_config_from_gui` produces from loaded content `a0`. -/
def builtAppBlob (a0 : Config) : Config :=
  a0.setdefault "APPCONF_SIGNATURE" (Config.getD a0 "APPCONF_SIGNATURE" 0)

/-- Method `_get_app_config_from_gui` (`src/gui_ai.py` lines 1029-1041):
deep-copies the loaded app config and `setdefault`s its signature. -/
def getAppConfigFromGui (h : Heap) (loadedApp : Option Nat) :
    Heap × Option Nat :=
  match loadedApp with
  | none => (h, none)
  | some r =>
      if (h.getCell r).isEmpty then (h, none)
      else
        let alloc := h.alloc (h.getCell r)
        let h1 := alloc.1
        let newRef := alloc.2
        let h2 := setdefaultRef h1 newRef "APPCONF_SIGNATURE"
          (Config.getD (h1.getCell r) "APPCONF_SIGNATURE" 0)
        (h2, some newRef)

inductive WriteOutcome where
  | ok
  | serialExn
  | otherExn
deriving DecidableEq

structure WriteWorkerResult where
  heap : Heap
  sentMc : Option Config
  sentApp : Option Config
  ok : Bool
  err : Option String
  configWriteInProgress : Bool
  pauseDatareader : Bool
deriving DecidableEq

/-- Truthiness of a possibly-absent dict reference (`if self.loaded_mc_config`). -/
def refTruthy (h : Heap) (o : Option Nat) : Bool :=
  match o with
  | none => false
  | some r => !(h.getCell r).isEmpty

/-- The mc-signature `setdefault` step of `_write_configs_worker`
(guarded by the truthiness of `self.loaded_mc_config`). -/
def workerMcStep (h : Heap) (mcRef : Nat) (loadedMc : Option Nat) : Heap :=
  if refTruthy h loadedMc then
    setdefaultRef h mcRef "MCCONF_SIGNATURE"
      (Config.getD (h.getCell (loadedMc.getD 0)) "MCCONF_SIGNATURE" 0)
  else h

/-- The app-signature `setdefault` step of `_write_configs_worker`. -/
def workerAppStep (h : Heap) (appRef : Nat) (loadedApp : Option Nat) : Heap :=
  if refTruthy h loadedApp then
    setdefaultRef h appRef "APPCONF_SIGNATURE"
      (Config.getD (h.getCell (loadedApp.getD 0)) "APPCONF_SIGNATURE" 0)
  else h

/-- Worker `_write_configs_worker` (`src/gui_ai.py` lines 834-891): wait for
the pause signal, then `setdefault` the signature on each blob (through
its reference, when the corresponding loaded config is truthy), encode
and send it.  `w1`/`w2` are the outcomes of the two `ser.write` calls;
`sentMc`/`sentApp` record the blob contents actually written to the
transport. -/
def writeConfigsWorker (h : Heap) (mcRef appRef : Nat)
    (loadedMc loadedApp : Option Nat) (paused serOpen : Bool)
    (w1 w2 : WriteOutcome) : WriteWorkerResult :=
  let r : WriteWorkerResult :=
    if ¬ paused then
      { heap := h, sentMc := none, sentApp := none, ok := false,
        err := some "Timeout waiting for DataReader to pause before write.",
        configWriteInProgress := true, pauseDatareader := true }
    else if ¬ serOpen then
      { heap := h, sentMc := none, sentApp := none, ok := false,
        err := some "Connection lost before write.",
        configWriteInProgress := true, pauseDatareader := true }
    else
      let h1 := workerMcStep h mcRef loadedMc
      match w1 with
      | .serialExn =>
          { heap := h1, sentMc := none, sentApp := none, ok := false,
            err := some "Serial Error writing",
            configWriteInProgress := true, pauseDatareader := true }
      | .otherExn =>
          { heap := h1, sentMc := none, sentApp := none, ok := false,
            err := some "Error writing",
            configWriteInProgress := true, pauseDatareader := true }
      | .ok =>
          let sentMcBlob := h1.getCell mcRef
          let h2 := workerAppStep h1 appRef loadedApp
          match w2 with
          | .serialExn =>
              { heap := h2, sentMc := some sentMcBlob, sentApp := none, ok := false,
                err := some "Serial Error writing",
                configWriteInProgress := true, pauseDatareader := true }
          | .otherExn =>
              { heap := h2, sentMc := some sentMcBlob, sentApp := none, ok := false,
                err := some "Error writing",
                configWriteInProgress := true, pauseDatareader := true }
          | .ok =>
              { heap := h2, sentMc := some sentMcBlob,
                sentApp := some (h2.getCell appRef), ok := true, err := none,
                configWriteInProgress := true, pauseDatareader := true }
  { r with configWriteInProgress := false, pauseDatareader := false }

/-- The write path of `write_all_configurations_event` (`src/gui_ai.py`
lines 804-832) once its guards pass, composed with the worker: build
both blobs from the GUI, then run `_write_configs_worker` on them.  When
either blob cannot be built the worker is not started and nothing is
sent. -/
def writeFlow (h : Heap) (loadedMc loadedApp : Option Nat) (guiSel : String)
    (paused serOpen : Bool) (w1 w2 : WriteOutcome) : WriteWorkerResult :=
  let mcBuild := getMcConfigFromGui h loadedMc guiSel
  let appBuild := getAppConfigFromGui mcBuild.1 loadedApp
  match mcBuild.2, appBuild.2 with
  | some mcRef, some appRef =>
      writeConfigsWorker appBuild.1 mcRef appRef loadedMc loadedApp paused serOpen w1 w2
  | _, _ =>
      { heap := appBuild.1, sentMc := none, sentApp := none, ok := false,
        err := some "Bad GUI config", configWriteInProgress := false,
        pauseDatareader := false }

/-! ## Configuration read/write request events (`src/gui_ai.py`)

The GUI-thread entry points that guard and start the worker threads.
The state carries exactly the fields these events consult or set. -/

structure AppState where
  serialOpen : Bool
  configReadInProgress : Bool
  configWriteInProgress : Bool
  pauseDatareader : Bool
  loadedMc : Option Config
  loadedApp : Option Config
deriving DecidableEq

inductive EventOutcome where
  | errConnectFirst
  | busyRejected
  | errNoConfigs
  | cancelled
  | errBadGuiConfig
  | started
deriving DecidableEq

/-- Event `read_all_configurations_event` (`src/gui_ai.py` lines 719-728). -/
def readAllConfigurationsEvent (s : AppState) : AppState × EventOutcome :=
  if ¬ s.serialOpen then (s, .errConnectFirst)
  else if s.configReadInProgress || s.configWriteInProgress then (s, .busyRejected)
  else ({ s with configReadInProgress := true, pauseDatareader := true }, .started)

/-- Event `write_all_configurations_event` (`src/gui_ai.py` lines 804-832) up
to the point where the worker thread is started.  `confirm` is the
user's answer to the confirmation dialog; `guiExn` signals a failure to
build the blobs from the GUI (`mc_w`/`app_w` falsy). -/
def writeAllConfigurationsEvent (s : AppState) (confirm guiExn : Bool) :
    AppState × EventOutcome :=
  if ¬ s.serialOpen then (s, .errConnectFirst)
  else if s.configWriteInProgress || s.configReadInProgress then (s, .busyRejected)
  else if ¬ (optTruthy s.loadedMc && optTruthy s.loadedApp) then (s, .errNoConfigs)
  else if ¬ confirm then (s, .cancelled)
  else
    let s1 := { s with configWriteInProgress := true, pauseDatareader := true }
    if guiExn then
      ({ s1 with configWriteInProgress := false, pauseDatareader := false },
       .errBadGuiConfig)
    else (s1, .started)

/-! ## Duty-cycle slider handlers -/

/-- Handler `_slider_duty_event` (`src/gui_ai.py` lines 1136-1143): the duty
value sent when the control mode is Duty (`None` when no command is
sent).  Slider values and duty cycles are exact rationals. -/
def guiAiSliderDuty (mode : String) (val : ℚ) : Option ℚ :=
  let d := max 0 (min (19/20) (val / 100))
  if mode = "Duty" then some d else none

/-- Handler `_slider_duty_event` (`src/realtime_gui.py` lines 747-753). -/
def realtimeSliderDuty (mode : String) (val : ℚ) : Option ℚ :=
  if mode = "Duty" then
    let dutyValue := val / 100
    some (max 0 (min (19/20) dutyValue))
  else none

/-! ## Serial close operations -/

/-- State of a pyserial handle. -/
structure PySerial where
  is_open : Bool
deriving DecidableEq

/-- Function `read.close_serial_port` (`src/read.py` lines 70-77): guarded by
`if ser and ser.is_open`, and the `ser.close()` call is wrapped in
`try/except`; total, never raises. -/
def close_serial_port (ser : Option PySerial) : Option PySerial :=
  match ser with
  | none => none
  | some s => if s.is_open then some { is_open := false } else some s

/-- Function `serial_instance.close_serial` (`src/serial_instance.py` lines
19-20): calls `ser.close()` unconditionally on the module-level `ser`;
on `ser = None` this raises `AttributeError` (modelled as `.error`).
pyserial's `close()` is itself a no-op on an already-closed port. -/
def close_serial (ser : Option PySerial) : Except String (Option PySerial) :=
  match ser with
  | none => .error "AttributeError"
  | some _ => .ok (some { is_open := false })

/-! ## Theorems -/

theorem Config.get_set_ne (c : Config) (k k' : String) (v : Nat) (h : k' ≠ k) :
    (Config.set c k v).get k' = c.get k' := by
  induction c with
  | nil => simp [Config.set, Config.get, Ne.symm h]
  | cons head tail ih =>
      obtain ⟨hk, hv⟩ := head
      by_cases hh : hk = k
      · subst hh
        simp [Config.set, Config.get, (Ne.symm h)]
      · simp only [Config.set, if_neg hh, Config.get]
        by_cases hh' : hk = k'
        · simp [hh']
        · simp [hh', ih]

theorem Config.get_setdefault_same (c : Config) (k : String) (v : Nat) :
    (Config.setdefault c k v).get k = some (Config.getD c k v) := by
  unfold Config.setdefault Config.getD
  cases hg : c.get k with
  | some w => simp [hg]
  | none =>
      simp only [hg, Option.isSome_none, Bool.false_eq_true, if_false, Option.getD_none]
      induction c with
      | nil => simp [Config.get]
      | cons head tail ih =>
          obtain ⟨hk, hv⟩ := head
          by_cases hh : hk = k
          · subst hh; simp [Config.get] at hg
          · simp only [Config.get, if_neg hh] at hg ⊢
            exact ih hg

theorem Config.get_setdefault_isSome (c : Config) (k : String) (v : Nat) :
    ((Config.setdefault c k v).get k).isSome := by
  rw [Config.get_setdefault_same]; rfl

theorem Config.setdefault_of_isSome (c : Config) (k : String) (v : Nat)
    (h : (c.get k).isSome) : Config.setdefault c k v = c := by
  unfold Config.setdefault
  simp [h]

theorem Heap.getCell_alloc_old (h : Heap) (c : Config) (i : Nat)
    (hi : i < h.cells.length) : (h.alloc c).1.getCell i = h.getCell i := by
  simp [Heap.alloc, Heap.getCell, List.getElem?_append_left hi]

theorem Heap.getCell_alloc_new (h : Heap) (c : Config) :
    (h.alloc c).1.getCell h.cells.length = c := by
  simp [Heap.alloc, Heap.getCell, List.getElem?_concat_length]

theorem Heap.getCell_setCell_ne (h : Heap) (r : Nat) (c : Config) (i : Nat)
    (hi : i ≠ r) : (h.setCell r c).getCell i = h.getCell i := by
  simp [Heap.setCell, Heap.getCell, List.getElem?_set_ne (Ne.symm hi)]

theorem Heap.getCell_setCell_same (h : Heap) (r : Nat) (c : Config)
    (hr : r < h.cells.length) : (h.setCell r c).getCell r = c := by
  simp [Heap.setCell, Heap.getCell, List.getElem?_set_self, hr]

theorem Heap.length_alloc (h : Heap) (c : Config) :
    (h.alloc c).1.cells.length = h.cells.length + 1 := by
  simp [Heap.alloc]

theorem Heap.length_setCell (h : Heap) (r : Nat) (c : Config) :
    (h.setCell r c).cells.length = h.cells.length := by
  simp [Heap.setCell]

theorem unframe_frame (p rest : List Nat) :
    unframe (frame p ++ rest) = .complete p (p.length + 4) := by
  have hshape : frame p ++ rest
      = startMarker :: p.length :: (p ++ checksum p :: endMarker :: rest) := by
    simp [frame]
  have htail_len : (p ++ checksum p :: endMarker :: rest).length
      = p.length + (rest.length + 2) := by
    simp only [List.length_append, List.length_cons]
  have htake : (p ++ checksum p :: endMarker :: rest).take p.length = p :=
    List.take_left p _
  have hget0 : (p ++ checksum p :: endMarker :: rest).get? p.length
      = some (checksum p) := by
    rw [List.get?_append_right (le_refl _)]
    simp
  have hget1 : (p ++ checksum p :: endMarker :: rest).get? (p.length + 1)
      = some endMarker := by
    rw [List.get?_append_right (Nat.le_succ_of_le (le_refl _))]
    simp [Nat.add_sub_cancel_left]
  rw [hshape]
  simp only [unframe]
  rw [if_neg (by simp)]
  rw [if_neg (by rw [htail_len]; omega)]
  rw [htake, hget0, hget1]
  rw [if_pos ⟨rfl, rfl⟩]

theorem unframe_corrupt_ne_nil (buffer : List Nat) (h : unframe buffer = .corrupt) :
    buffer ≠ [] := by
  intro hnil
  rw [hnil] at h
  simp [unframe] at h

theorem unframe_complete_consumed_pos (buffer payload : List Nat) (n : Nat)
    (h : unframe buffer = .complete payload n) : 1 ≤ n ∧ buffer ≠ [] := by
  unfold unframe at h
  split at h
  · cases h
  · refine ⟨?_, by simp⟩
    split at h
    · cases h
    · split at h
      · cases h
      · split at h
        · cases h
        · split at h
          · injection h with h1 h2
            omega
          · cases h

/-- The discard loop never exhausts fuel `buffer.length + 1`: every
iteration either terminates or strictly shrinks the buffer. -/
theorem readLoopFuel_terminates (parse : List Nat → Option Config)
    (expectedId : Nat) :
    ∀ fuel buffer, buffer.length < fuel →
      readLoopFuel parse expectedId fuel buffer ≠ .outOfFuel := by
  intro fuel
  induction fuel with
  | zero => intro buffer h; omega
  | succ n ih =>
      intro buffer h
      cases hu : unframe buffer with
      | complete payload consumed =>
          have hcons := unframe_complete_consumed_pos buffer payload consumed hu
          have hne0 : buffer.length ≠ 0 := fun h0 => hcons.2 (List.length_eq_zero.mp h0)
          have hlen : (buffer.drop consumed).length < n := by
            rw [List.length_drop]; omega
          simp only [readLoopFuel, hu]
          split
          · split
            · split
              · split
                · simp
                · exact ih _ hlen
              · exact ih _ hlen
            · exact ih _ hlen
          · simp
      | incomplete =>
          simp only [readLoopFuel, hu]
          simp
      | corrupt =>
          have hne := unframe_corrupt_ne_nil buffer hu
          have hne0 : buffer.length ≠ 0 := fun h0 => hne (List.length_eq_zero.mp h0)
          simp only [readLoopFuel, hu]
          split
          · simp
          · refine ih _ ?_
            rw [List.length_drop]; omega

/-- Resynchronisation for marker-free garbage: every corrupt-data
signal discards exactly one garbage byte, after which the valid frame is
unframed, identified and parsed. -/
theorem readLoopFuel_resync (parse : List Nat → Option Config)
    (expectedId : Nat) (p : List Nat) (c : Config)
    (hp : p ≠ []) (hid : p.headD 0 = expectedId)
    (hparse : parse (p.drop 1) = some c) (hc : c ≠ []) :
    ∀ garbage fuel, (∀ b ∈ garbage, b ≠ startMarker) →
      garbage.length < fuel →
      readLoopFuel parse expectedId fuel (garbage ++ frame p) = .found c := by
  intro garbage
  induction garbage with
  | nil =>
      intro fuel _ hfuel
      match fuel, hfuel with
      | n + 1, _ =>
          have hu : unframe ([] ++ frame p) = .complete p (p.length + 4) := by
            rw [List.nil_append]
            have := unframe_frame p []
            rwa [List.append_nil] at this
          simp only [readLoopFuel, hu]
          rw [if_pos hp, if_pos hid]
          simp only [hparse]
          rw [if_pos hc]
  | cons g gs ih =>
      intro fuel hmark hfuel
      match fuel, hfuel with
      | n + 1, hfuel =>
          have hg : g ≠ startMarker := hmark g (by simp)
          have hu : unframe ((g :: gs) ++ frame p) = .corrupt := by
            simp only [List.cons_append, unframe]
            rw [if_pos hg]
          simp only [readLoopFuel, hu]
          rw [if_neg (by simp)]
          have hdrop : ((g :: gs) ++ frame p).drop 1 = gs ++ frame p := by
            simp
          rw [hdrop]
          exact ih n (fun b hb => hmark b (by simp [hb])) (by simpa using hfuel)

theorem readConfigLoop_no_close (parse : List Nat → Option Config)
    (expectedId : Nat) :
    ∀ chunks buffer, TOp.closePort ∉ (readConfigLoop parse expectedId chunks buffer).2 := by
  intro chunks
  induction chunks with
  | nil => intro buffer; simp [readConfigLoop]
  | cons chunk rest ih =>
      intro buffer
      simp only [readConfigLoop]
      split
      · by_cases hch : chunk.isEmpty
        · simp [hch]
        · simp [hch]
      · simp only [List.mem_append]
        rintro (hmem | hmem)
        · by_cases hch : chunk.isEmpty
          · simp [hch] at hmem
          · simp [hch] at hmem
        · exact ih _ hmem
      · by_cases hch : chunk.isEmpty
        · simp [hch]
        · simp [hch]

theorem readConfigLoop_all_empty (parse : List Nat → Option Config)
    (expectedId : Nat) :
    ∀ chunks, (∀ ch ∈ chunks, ch = ([] : List Nat)) →
      (readConfigLoop parse expectedId chunks []).1 = none := by
  intro chunks
  induction chunks with
  | nil => intro _; simp [readConfigLoop]
  | cons chunk rest ih =>
      intro hall
      have hch : chunk = [] := hall chunk (by simp)
      subst hch
      have hrec := ih (fun ch hc => hall ch (by simp [hc]))
      simp [readConfigLoop, readLoopFuel, unframe, hrec]

/-! ## Helper lemmas for the write pipeline -/

theorem Heap.getCell_setCell_self (h : Heap) (r : Nat) :
    (h.setCell r (h.getCell r)).getCell r = h.getCell r := by
  by_cases hr : r < h.cells.length
  · exact h.getCell_setCell_same r _ hr
  · have hle : h.cells.length ≤ r := le_of_not_lt hr
    simp [Heap.setCell, Heap.getCell, List.set_eq_of_length_le hle]

theorem mcGuiEdit_get_sig (c0 : Config) (guiSel : String) :
    (mcGuiEdit c0 guiSel).get "MCCONF_SIGNATURE" = c0.get "MCCONF_SIGNATURE" := by
  unfold mcGuiEdit
  match motorTypeMapInv guiSel with
  | some v => exact Config.get_set_ne c0 "motor_type" "MCCONF_SIGNATURE" v (by decide)
  | none => rfl

theorem builtMcBlob_sig (c0 : Config) (guiSel : String) :
    ((builtMcBlob c0 guiSel).get "MCCONF_SIGNATURE").isSome
    ∧ ∀ s, c0.get "MCCONF_SIGNATURE" = some s →
        (builtMcBlob c0 guiSel).get "MCCONF_SIGNATURE" = some s := by
  constructor
  · exact Config.get_setdefault_isSome _ _ _
  · intro s hs
    rw [builtMcBlob, Config.get_setdefault_same, Config.getD, mcGuiEdit_get_sig, hs]
    rfl

theorem builtAppBlob_sig (a0 : Config) :
    ((builtAppBlob a0).get "APPCONF_SIGNATURE").isSome
    ∧ ∀ s, a0.get "APPCONF_SIGNATURE" = some s →
        (builtAppBlob a0).get "APPCONF_SIGNATURE" = some s := by
  constructor
  · exact Config.get_setdefault_isSome _ _ _
  · intro s hs
    rw [builtAppBlob, Config.get_setdefault_same, Config.getD, hs]
    rfl

theorem Heap.alloc_snd (h : Heap) (c : Config) : (h.alloc c).2 = h.cells.length :=
  rfl

theorem getMcConfigFromGui_spec (h : Heap) (rm : Nat) (guiSel : String)
    (hrm : rm < h.cells.length) (hne : ¬ (h.getCell rm).isEmpty = true) :
    (getMcConfigFromGui h (some rm) guiSel).2 = some h.cells.length
    ∧ (getMcConfigFromGui h (some rm) guiSel).1.cells.length = h.cells.length + 1
    ∧ (∀ i, i < h.cells.length →
        (getMcConfigFromGui h (some rm) guiSel).1.getCell i = h.getCell i)
    ∧ (getMcConfigFromGui h (some rm) guiSel).1.getCell h.cells.length
        = builtMcBlob (h.getCell rm) guiSel := by
  have hlen1 : (h.alloc (h.getCell rm)).1.cells.length = h.cells.length + 1 :=
    h.length_alloc _
  have hold : ∀ i, i < h.cells.length →
      (h.alloc (h.getCell rm)).1.getCell i = h.getCell i :=
    fun i hi => h.getCell_alloc_old _ i hi
  have hnew : (h.alloc (h.getCell rm)).1.getCell h.cells.length = h.getCell rm :=
    h.getCell_alloc_new _
  simp only [getMcConfigFromGui]
  rw [if_neg hne]
  simp only [Heap.alloc_snd]
  cases hmv : motorTypeMapInv guiSel with
  | some v =>
      simp only [hmv, setdefaultRef, setItemRef]
      refine ⟨by trivial, ?_, ?_, ?_⟩
      · rw [Heap.length_setCell, Heap.length_setCell, hlen1]
      · intro i hi
        rw [Heap.getCell_setCell_ne _ _ _ _ (by omega),
            Heap.getCell_setCell_ne _ _ _ _ (by omega)]
        exact hold i hi
      · have hcellr : (((h.alloc (h.getCell rm)).1.setCell h.cells.length
            ((h.getCell rm).set "motor_type" v)).getCell rm)
            = h.getCell rm := by
          rw [Heap.getCell_setCell_ne _ _ _ _ (by omega)]
          exact hold rm hrm
        rw [Heap.getCell_setCell_same _ _ _
            (by rw [Heap.length_setCell, hlen1]; omega)]
        rw [Heap.getCell_setCell_same _ _ _ (by rw [hlen1]; omega)]
        rw [hnew, hcellr]
        simp only [builtMcBlob, mcGuiEdit, hmv]
  | none =>
      simp only [hmv, setdefaultRef]
      refine ⟨by trivial, ?_, ?_, ?_⟩
      · rw [Heap.length_setCell, hlen1]
      · intro i hi
        rw [Heap.getCell_setCell_ne _ _ _ _ (by omega)]
        exact hold i hi
      · have hcellr : ((h.alloc (h.getCell rm)).1.getCell rm) = h.getCell rm :=
          hold rm hrm
        rw [Heap.getCell_setCell_same _ _ _ (by rw [hlen1]; omega)]
        rw [hnew, hcellr]
        simp only [builtMcBlob, mcGuiEdit, hmv]

theorem getAppConfigFromGui_spec (h : Heap) (ra : Nat)
    (hra : ra < h.cells.length) (hne : ¬ (h.getCell ra).isEmpty = true) :
    (getAppConfigFromGui h (some ra)).2 = some h.cells.length
    ∧ (getAppConfigFromGui h (some ra)).1.cells.length = h.cells.length + 1
    ∧ (∀ i, i < h.cells.length →
        (getAppConfigFromGui h (some ra)).1.getCell i = h.getCell i)
    ∧ (getAppConfigFromGui h (some ra)).1.getCell h.cells.length
        = builtAppBlob (h.getCell ra) := by
  have hlen1 : (h.alloc (h.getCell ra)).1.cells.length = h.cells.length + 1 :=
    h.length_alloc _
  have hold : ∀ i, i < h.cells.length →
      (h.alloc (h.getCell ra)).1.getCell i = h.getCell i :=
    fun i hi => h.getCell_alloc_old _ i hi
  have hnew : (h.alloc (h.getCell ra)).1.getCell h.cells.length = h.getCell ra :=
    h.getCell_alloc_new _
  simp only [getAppConfigFromGui]
  rw [if_neg hne]
  simp only [Heap.alloc_snd, setdefaultRef]
  refine ⟨by trivial, ?_, ?_, ?_⟩
  · rw [Heap.length_setCell, hlen1]
  · intro i hi
    rw [Heap.getCell_setCell_ne _ _ _ _ (by omega)]
    exact hold i hi
  · have hcellr : ((h.alloc (h.getCell ra)).1.getCell ra) = h.getCell ra :=
      hold ra hra
    rw [Heap.getCell_setCell_same _ _ _ (by rw [hlen1]; omega)]
    rw [hnew, hcellr, builtAppBlob]

theorem workerMcStep_getCell_ne (h : Heap) (nm : Nat) (lm : Option Nat)
    (i : Nat) (hi : i ≠ nm) :
    (workerMcStep h nm lm).getCell i = h.getCell i := by
  unfold workerMcStep
  split
  · rw [setdefaultRef, Heap.getCell_setCell_ne _ _ _ _ hi]
  · rfl

theorem workerAppStep_getCell_ne (h : Heap) (na : Nat) (la : Option Nat)
    (i : Nat) (hi : i ≠ na) :
    (workerAppStep h na la).getCell i = h.getCell i := by
  unfold workerAppStep
  split
  · rw [setdefaultRef, Heap.getCell_setCell_ne _ _ _ _ hi]
  · rfl

theorem workerMcStep_getCell_self (h : Heap) (nm : Nat) (lm : Option Nat)
    (hsig : ((h.getCell nm).get "MCCONF_SIGNATURE").isSome) :
    (workerMcStep h nm lm).getCell nm = h.getCell nm := by
  unfold workerMcStep
  split
  · rw [setdefaultRef, Config.setdefault_of_isSome _ _ _ hsig]
    exact h.getCell_setCell_self nm
  · rfl

theorem workerAppStep_getCell_self (h : Heap) (na : Nat) (la : Option Nat)
    (hsig : ((h.getCell na).get "APPCONF_SIGNATURE").isSome) :
    (workerAppStep h na la).getCell na = h.getCell na := by
  unfold workerAppStep
  split
  · rw [setdefaultRef, Config.setdefault_of_isSome _ _ _ hsig]
    exact h.getCell_setCell_self na
  · rfl

theorem writeConfigsWorker_preserves (H : Heap) (nm na : Nat)
    (lm la : Option Nat) (paused serOpen : Bool) (w1 w2 : WriteOutcome)
    (i : Nat) (him : i ≠ nm) (hia : i ≠ na) :
    (writeConfigsWorker H nm na lm la paused serOpen w1 w2).heap.getCell i
      = H.getCell i := by
  cases paused with
  | false => rfl
  | true =>
      cases serOpen with
      | false => rfl
      | true =>
          cases w1 with
          | serialExn =>
              show (workerMcStep H nm lm).getCell i = H.getCell i
              exact workerMcStep_getCell_ne H nm lm i him
          | otherExn =>
              show (workerMcStep H nm lm).getCell i = H.getCell i
              exact workerMcStep_getCell_ne H nm lm i him
          | ok =>
              cases w2 with
              | serialExn =>
                  show (workerAppStep (workerMcStep H nm lm) na la).getCell i
                      = H.getCell i
                  rw [workerAppStep_getCell_ne _ _ _ i hia]
                  exact workerMcStep_getCell_ne H nm lm i him
              | otherExn =>
                  show (workerAppStep (workerMcStep H nm lm) na la).getCell i
                      = H.getCell i
                  rw [workerAppStep_getCell_ne _ _ _ i hia]
                  exact workerMcStep_getCell_ne H nm lm i him
              | ok =>
                  show (workerAppStep (workerMcStep H nm lm) na la).getCell i
                      = H.getCell i
                  rw [workerAppStep_getCell_ne _ _ _ i hia]
                  exact workerMcStep_getCell_ne H nm lm i him

theorem writeConfigsWorker_sentMc (H : Heap) (nm na : Nat)
    (lm la : Option Nat) (paused serOpen : Bool) (w1 w2 : WriteOutcome)
    (b : Config) (hsig : ((H.getCell nm).get "MCCONF_SIGNATURE").isSome)
    (hsent : (writeConfigsWorker H nm na lm la paused serOpen w1 w2).sentMc = some b) :
    b = H.getCell nm := by
  cases paused with
  | false => cases hsent
  | true =>
      cases serOpen with
      | false => cases hsent
      | true =>
          cases w1 with
          | serialExn => cases hsent
          | otherExn => cases hsent
          | ok =>
              have hsm : (writeConfigsWorker H nm na lm la true true .ok w2).sentMc
                  = some ((workerMcStep H nm lm).getCell nm) := by
                cases w2 <;> rfl
              rw [hsm] at hsent
              injection hsent with hb
              rw [← hb, workerMcStep_getCell_self H nm lm hsig]

theorem writeConfigsWorker_sentApp (H : Heap) (nm na : Nat)
    (lm la : Option Nat) (paused serOpen : Bool) (w1 w2 : WriteOutcome)
    (b : Config) (hne : na ≠ nm)
    (hsig : ((H.getCell na).get "APPCONF_SIGNATURE").isSome)
    (hsent : (writeConfigsWorker H nm na lm la paused serOpen w1 w2).sentApp = some b) :
    b = H.getCell na := by
  cases paused with
  | false => cases hsent
  | true =>
      cases serOpen with
      | false => cases hsent
      | true =>
          cases w1 with
          | serialExn => cases hsent
          | otherExn => cases hsent
          | ok =>
              cases w2 with
              | serialExn => cases hsent
              | otherExn => cases hsent
              | ok =>
                  have hsa : (writeConfigsWorker H nm na lm la true true .ok .ok).sentApp
                      = some ((workerAppStep (workerMcStep H nm lm) na la).getCell na) := rfl
                  rw [hsa] at hsent
                  injection hsent with hb
                  have hmstep : (workerMcStep H nm lm).getCell na = H.getCell na :=
                    workerMcStep_getCell_ne H nm lm na hne
                  have hsig2 : (((workerMcStep H nm lm).getCell na).get "APPCONF_SIGNATURE").isSome := by
                    rw [hmstep]; exact hsig
                  rw [← hb, workerAppStep_getCell_self _ na la hsig2, hmstep]

theorem writeFlow_spec (h : Heap) (rm ra : Nat) (guiSel : String)
    (paused serOpen : Bool) (w1 w2 : WriteOutcome)
    (hrm : rm < h.cells.length) (hra : ra < h.cells.length) :
    ((writeFlow h (some rm) (some ra) guiSel paused serOpen w1 w2).heap.getCell rm
        = h.getCell rm)
    ∧ ((writeFlow h (some rm) (some ra) guiSel paused serOpen w1 w2).heap.getCell ra
        = h.getCell ra)
    ∧ (∀ b, (writeFlow h (some rm) (some ra) guiSel paused serOpen w1 w2).sentMc = some b →
        b = builtMcBlob (h.getCell rm) guiSel)
    ∧ (∀ b, (writeFlow h (some rm) (some ra) guiSel paused serOpen w1 w2).sentApp = some b →
        b = builtAppBlob (h.getCell ra)) := by
  by_cases hme : (h.getCell rm).isEmpty = true
  · have hmc : getMcConfigFromGui h (some rm) guiSel = (h, none) := by
      simp only [getMcConfigFromGui]
      rw [if_pos hme]
    by_cases hae : (h.getCell ra).isEmpty = true
    · have happ : getAppConfigFromGui h (some ra) = (h, none) := by
        simp only [getAppConfigFromGui]
        rw [if_pos hae]
      simp only [writeFlow, hmc, happ]
      refine ⟨by trivial, by trivial, ?_, ?_⟩
      · intro b hb
        cases hb
      · intro b hb
        cases hb
    · obtain ⟨ha2, halen, hahold, hacont⟩ := getAppConfigFromGui_spec h ra hra hae
      simp only [writeFlow, hmc, ha2]
      refine ⟨?_, ?_, ?_, ?_⟩
      · first
        | exact hahold rm hrm
        | trivial
      · first
        | exact hahold ra hra
        | trivial
      · intro b hb
        cases hb
      · intro b hb
        cases hb
  · obtain ⟨hm2, hmlen, hmhold, hmcont⟩ := getMcConfigFromGui_spec h rm guiSel hrm hme
    have hra3 : ra < (getMcConfigFromGui h (some rm) guiSel).1.cells.length := by
      rw [hmlen]; omega
    have hraeq : (getMcConfigFromGui h (some rm) guiSel).1.getCell ra = h.getCell ra :=
      hmhold ra hra
    by_cases hae : (h.getCell ra).isEmpty = true
    · have hae3 : ((getMcConfigFromGui h (some rm) guiSel).1.getCell ra).isEmpty = true := by
        rw [hraeq]; exact hae
      have happ : getAppConfigFromGui (getMcConfigFromGui h (some rm) guiSel).1 (some ra)
          = ((getMcConfigFromGui h (some rm) guiSel).1, none) := by
        simp only [getAppConfigFromGui]
        rw [if_pos hae3]
      simp only [writeFlow, hm2, happ]
      refine ⟨?_, ?_, ?_, ?_⟩
      · first
        | exact hmhold rm hrm
        | trivial
      · first
        | exact hraeq
        | trivial
      · intro b hb
        cases hb
      · intro b hb
        cases hb
    · have hae3 : ¬ ((getMcConfigFromGui h (some rm) guiSel).1.getCell ra).isEmpty = true := by
        rw [hraeq]; exact hae
      obtain ⟨ha2, halen, hahold, hacont⟩ :=
        getAppConfigFromGui_spec (getMcConfigFromGui h (some rm) guiSel).1 ra hra3 hae3
      -- abbreviations for the two fresh references and the worker heap
      have hmccell : (getAppConfigFromGui (getMcConfigFromGui h (some rm) guiSel).1
          (some ra)).1.getCell h.cells.length = builtMcBlob (h.getCell rm) guiSel := by
        rw [hahold h.cells.length (by rw [hmlen]; omega), hmcont]
      have hacell : (getAppConfigFromGui (getMcConfigFromGui h (some rm) guiSel).1
          (some ra)).1.getCell (getMcConfigFromGui h (some rm) guiSel).1.cells.length
          = builtAppBlob (h.getCell ra) := by
        rw [hacont, hraeq]
      have hW := writeConfigsWorker_preserves
        (getAppConfigFromGui (getMcConfigFromGui h (some rm) guiSel).1 (some ra)).1
        h.cells.length ((getMcConfigFromGui h (some rm) guiSel).1.cells.length)
        (some rm) (some ra) paused serOpen w1 w2
      simp only [writeFlow, hm2, ha2]
      refine ⟨?_, ?_, ?_, ?_⟩
      · rw [hW rm (by omega) (by rw [hmlen]; omega)]
        rw [hahold rm (by rw [hmlen]; omega), hmhold rm hrm]
      · rw [hW ra (by omega) (by rw [hmlen]; omega)]
        rw [hahold ra hra3, hraeq]
      · intro b hb
        have hsig : (((getAppConfigFromGui (getMcConfigFromGui h (some rm) guiSel).1
            (some ra)).1.getCell h.cells.length).get "MCCONF_SIGNATURE").isSome := by
          rw [hmccell]
          exact (builtMcBlob_sig (h.getCell rm) guiSel).1
        have := writeConfigsWorker_sentMc _ _ _ _ _ paused serOpen w1 w2 b hsig hb
        rw [this, hmccell]
      · intro b hb
        have hsig : (((getAppConfigFromGui (getMcConfigFromGui h (some rm) guiSel).1
            (some ra)).1.getCell (getMcConfigFromGui h (some rm) guiSel).1.cells.length).get
            "APPCONF_SIGNATURE").isSome := by
          rw [hacell]
          exact (builtAppBlob_sig (h.getCell ra)).1
        have := writeConfigsWorker_sentApp _ _ _ _ _ paused serOpen w1 w2 b
          (by rw [hmlen]; omega) hsig hb
        rw [this, hacell]

/-! ## Claim theorems -/

/-- Claim C1, counterexample: when the 0.5s wait for the poller's paused
signal times out (`paused = false`), `_read_configs_worker` does NOT
proceed with the configuration operation: it issues no request on the
transport and reports the pause-wait timeout as the operation's error,
contradicting the claim that the exchange proceeds regardless. -/
theorem c1_counterexample :
    (readConfigsWorker false true (.parsed [("motor_type", 0)])
      (.parsed [("controller_id", 1)])).requests = []
    ∧ (readConfigsWorker false true (.parsed [("motor_type", 0)])
      (.parsed [("controller_id", 1)])).err
        = some "Timeout waiting for DataReader to pause." := by
  constructor
  · rfl
  · rfl

/-- Claim C1 (amended): the exchange sets pause-requested and waits up
to 0.5s for the paused signal; if that wait times out it does not
proceed: both workers perform no transport operation (no request issued,
no blob sent, heap untouched) and complete reporting the pause-wait
timeout as an error. -/
theorem c1_amended (serOpen : Bool) (mcOut appOut : ReadOutcome)
    (h : Heap) (mcRef appRef : Nat) (loadedMc loadedApp : Option Nat)
    (serOpenW : Bool) (w1 w2 : WriteOutcome) :
    (readConfigsWorker false serOpen mcOut appOut).requests = []
    ∧ (readConfigsWorker false serOpen mcOut appOut).err
        = some "Timeout waiting for DataReader to pause."
    ∧ (writeConfigsWorker h mcRef appRef loadedMc loadedApp false serOpenW w1 w2).sentMc
        = none
    ∧ (writeConfigsWorker h mcRef appRef loadedMc loadedApp false serOpenW w1 w2).sentApp
        = none
    ∧ (writeConfigsWorker h mcRef appRef loadedMc loadedApp false serOpenW w1 w2).err
        = some "Timeout waiting for DataReader to pause before write."
    ∧ (writeConfigsWorker h mcRef appRef loadedMc loadedApp false serOpenW w1 w2).heap
        = h :=
  ⟨rfl, rfl, rfl, rfl, rfl, rfl⟩

/-- Claim C2, counterexample: with arbitrary garbage the claim fails.
The garbage `[2, 4, 253]` starts with the frame start marker and,
together with the first bytes of the valid frame `frame [9]`, forms a
checksum-valid frame whose payload id (253) does not match; the loop
discards those consumed bytes — swallowing the whole valid frame — and
ends waiting for more data with an empty buffer, so the valid frame is
silently dropped (the operation then times out). -/
theorem c2_counterexample :
    unframe (frame [9]) = .complete [9] 5
    ∧ readLoopFuel (fun bytes => some [("parsed_len", bytes.length)]) 9 100
        ([2, 4, 253] ++ frame [9]) = .needMore []
    ∧ (readConfigResponse (fun bytes => some [("parsed_len", bytes.length)]) 9
        [[2, 4, 253] ++ frame [9]]).1 = none := by
  refine ⟨by decide, by decide, by decide⟩

/-- Claim C2 (amended): for garbage containing no start-marker byte
followed by a valid frame whose payload carries the expected command id
and parses, the repeated unframe/discard cycle (one byte discarded per
corrupt-data signal) returns the parsed payload within one iteration per
buffer byte; and on every buffer the loop terminates within
`buffer.length + 1` iterations, so it never loops forever. -/
theorem c2_amended (parse : List Nat → Option Config) (expectedId : Nat)
    (p : List Nat) (c : Config) (garbage : List Nat)
    (hmark : ∀ b ∈ garbage, b ≠ startMarker) (hp : p ≠ [])
    (hid : p.headD 0 = expectedId) (hparse : parse (p.drop 1) = some c)
    (hc : c ≠ []) :
    readLoopFuel parse expectedId ((garbage ++ frame p).length + 1)
      (garbage ++ frame p) = .found c
    ∧ ∀ fuel buffer, buffer.length < fuel →
        readLoopFuel parse expectedId fuel buffer ≠ .outOfFuel := by
  refine ⟨?_, readLoopFuel_terminates parse expectedId⟩
  exact readLoopFuel_resync parse expectedId p c hp hid hparse hc garbage _
    hmark (by rw [List.length_append]; omega)

/-- Witness for C2 (amended) at a concrete marker-free garbage prefix. -/
theorem c2_amended_witness :
    readLoopFuel (fun bytes => some [("parsed_len", bytes.length)]) 9
      (([7, 7] ++ frame [9]).length + 1) ([7, 7] ++ frame [9])
      = .found [("parsed_len", 0)] :=
  (c2_amended (fun bytes => some [("parsed_len", bytes.length)]) 9 [9]
    [("parsed_len", 0)] [7, 7] (by decide) (by decide) (by decide) (by decide)
    (by decide)).1

/-- Claim C3: a blob sent by the write flow always carries its signature
field, and when the loaded (read) blob has a signature, the sent blob's
signature equals it (for both MCCONF and APPCONF). -/
theorem c3_signature_preserved (h : Heap) (rm ra : Nat) (guiSel : String)
    (paused serOpen : Bool) (w1 w2 : WriteOutcome)
    (hrm : rm < h.cells.length) (hra : ra < h.cells.length) :
    (∀ b, (writeFlow h (some rm) (some ra) guiSel paused serOpen w1 w2).sentMc = some b →
        (b.get "MCCONF_SIGNATURE").isSome
        ∧ ∀ s, (h.getCell rm).get "MCCONF_SIGNATURE" = some s →
            b.get "MCCONF_SIGNATURE" = some s)
    ∧ (∀ b, (writeFlow h (some rm) (some ra) guiSel paused serOpen w1 w2).sentApp = some b →
        (b.get "APPCONF_SIGNATURE").isSome
        ∧ ∀ s, (h.getCell ra).get "APPCONF_SIGNATURE" = some s →
            b.get "APPCONF_SIGNATURE" = some s) := by
  obtain ⟨-, -, hmc, happ⟩ := writeFlow_spec h rm ra guiSel paused serOpen w1 w2 hrm hra
  constructor
  · intro b hb
    rw [hmc b hb]
    exact ⟨(builtMcBlob_sig _ _).1, fun s hs => (builtMcBlob_sig _ _).2 s hs⟩
  · intro b hb
    rw [happ b hb]
    exact ⟨(builtAppBlob_sig _).1, fun s hs => (builtAppBlob_sig _).2 s hs⟩

/-- Witness for C3: a concrete write flow sends the MC blob with the
signature 42 read earlier. -/
theorem c3_witness :
    Config.get [("MCCONF_SIGNATURE", 42), ("motor_type", 2)] "MCCONF_SIGNATURE"
      = some 42 := by
  have h := c3_signature_preserved
    ⟨[[("MCCONF_SIGNATURE", 42), ("motor_type", 0)], [("APPCONF_SIGNATURE", 7)]]⟩
    0 1 "FOC" true true .ok .ok (by decide) (by decide)
  exact (h.1 [("MCCONF_SIGNATURE", 42), ("motor_type", 2)] (by decide)).2 42 (by decide)

/-- Claim C4: every duty command sent from the sliders (both GUIs)
carries exactly `max 0 (min 0.95 (v / 100))`, hence a value within
`[0, 0.95]`. -/
theorem c4_duty_clamped (mode : String) (v d : ℚ)
    (hd : guiAiSliderDuty mode v = some d ∨ realtimeSliderDuty mode v = some d) :
    d = max 0 (min (19/20) (v / 100)) ∧ 0 ≤ d ∧ d ≤ 19/20 := by
  have hform : d = max 0 (min (19/20) (v / 100)) := by
    rcases hd with hd | hd
    · simp only [guiAiSliderDuty] at hd
      split at hd
      · injection hd with h1
        exact h1.symm
      · cases hd
    · simp only [realtimeSliderDuty] at hd
      split at hd
      · injection hd with h1
        exact h1.symm
      · cases hd
  refine ⟨hform, ?_, ?_⟩
  · rw [hform]
    exact le_max_left 0 _
  · rw [hform]
    exact max_le (by norm_num) (min_le_left _ _)

/-- Witness for C4 at slider value 50 in Duty mode. -/
theorem c4_witness :
    max (0:ℚ) (min (19/20) (50 / 100)) = max 0 (min (19/20) (50 / 100))
    ∧ (0:ℚ) ≤ max 0 (min (19/20) (50 / 100))
    ∧ max (0:ℚ) (min (19/20) (50 / 100)) ≤ 19/20 :=
  c4_duty_clamped "Duty" 50 _ (Or.inl rfl)

/-- Claim C5, counterexample: a read request made while a read is in
progress but no connection is open is rejected with the connect-first
error, not with the Busy indication the claim requires (the
connection check precedes the busy check). -/
theorem c5_counterexample :
    readAllConfigurationsEvent
      { serialOpen := false, configReadInProgress := true,
        configWriteInProgress := false, pauseDatareader := false,
        loadedMc := some [("motor_type", 0)], loadedApp := some [("controller_id", 1)] }
      = ({ serialOpen := false, configReadInProgress := true,
           configWriteInProgress := false, pauseDatareader := false,
           loadedMc := some [("motor_type", 0)],
           loadedApp := some [("controller_id", 1)] }, .errConnectFirst)
    ∧ EventOutcome.errConnectFirst ≠ EventOutcome.busyRejected := by
  refine ⟨by decide, by decide⟩

/-- Claim C5 (amended): while a configuration exchange is in progress
and the connection is open, a new read or write request is rejected
immediately with the Busy indication and the state is unchanged (no
worker is started, so nothing reaches the transport); with no open
connection the request is likewise rejected unchanged, but with a
connect-first error instead of Busy. -/
theorem c5_amended (s : AppState) (confirm guiExn : Bool)
    (hbusy : s.configReadInProgress = true ∨ s.configWriteInProgress = true)
    (hopen : s.serialOpen = true) :
    readAllConfigurationsEvent s = (s, .busyRejected)
    ∧ writeAllConfigurationsEvent s confirm guiExn = (s, .busyRejected) := by
  have hb : (s.configReadInProgress || s.configWriteInProgress) = true := by
    rcases hbusy with hb | hb <;> simp [hb]
  have hb2 : (s.configWriteInProgress || s.configReadInProgress) = true := by
    rcases hbusy with hb | hb <;> simp [hb]
  constructor
  · unfold readAllConfigurationsEvent
    rw [hopen, hb]
    simp
  · unfold writeAllConfigurationsEvent
    rw [hopen, hb2]
    simp

/-- Witness for C5 (amended) at a concrete busy, connected state. -/
theorem c5_amended_witness :
    readAllConfigurationsEvent
      { serialOpen := true, configReadInProgress := true,
        configWriteInProgress := false, pauseDatareader := true,
        loadedMc := none, loadedApp := none }
      = ({ serialOpen := true, configReadInProgress := true,
           configWriteInProgress := false, pauseDatareader := true,
           loadedMc := none, loadedApp := none }, .busyRejected)
    ∧ writeAllConfigurationsEvent
      { serialOpen := true, configReadInProgress := true,
        configWriteInProgress := false, pauseDatareader := true,
        loadedMc := none, loadedApp := none } true false
      = ({ serialOpen := true, configReadInProgress := true,
           configWriteInProgress := false, pauseDatareader := true,
           loadedMc := none, loadedApp := none }, .busyRejected) :=
  c5_amended _ true false (Or.inl rfl) rfl

/-- Claim C6: on every exit path of the configuration read and write
workers — pause-wait timeout, lost connection, failed or partial reads,
serial or unexpected exceptions, and success — the pause-requested flag
and the in-progress flag are reset to false when the worker completes. -/
theorem c6_pause_flag_always_reset (paused serOpen : Bool)
    (mcOut appOut : ReadOutcome) (h : Heap) (mcRef appRef : Nat)
    (loadedMc loadedApp : Option Nat) (pausedW serOpenW : Bool)
    (w1 w2 : WriteOutcome) :
    (readConfigsWorker paused serOpen mcOut appOut).pauseDatareader = false
    ∧ (readConfigsWorker paused serOpen mcOut appOut).configReadInProgress = false
    ∧ (writeConfigsWorker h mcRef appRef loadedMc loadedApp pausedW serOpenW w1 w2).pauseDatareader
        = false
    ∧ (writeConfigsWorker h mcRef appRef loadedMc loadedApp pausedW serOpenW w1 w2).configWriteInProgress
        = false :=
  ⟨rfl, rfl, rfl, rfl⟩

/-- Claim C7, counterexample: the `realtime_gui.py` poller, on a serial
exception mid-poll, emits TWO error notifications and closes the serial
port itself via `read.close_serial_port`, contradicting the claim that
exactly one notification is emitted and the OS resource is not closed by
the poller. -/
theorem c7_counterexample :
    countErrorMsgs (realtimePollCycle (some 0) true .serialExn).2 = 2
    ∧ PollEvent.closePort 0 ∈ (realtimePollCycle (some 0) true .serialExn).2 := by
  refine ⟨by decide, by decide⟩

/-- Claim C7 (amended): on a serial exception mid-poll the `gui_ai.py`
poller emits exactly one error notification, drops its reference to the
handle and closes nothing, while the `realtime_gui.py` poller emits two
notifications and closes the port itself before dropping its reference;
with no handle set, neither poller issues any telemetry request. -/
theorem c7_amended (hid : Nat) (b : Bool) (o : PollOutcome) :
    guiAiPollCycle (some hid) true .serialExn
      = (none, [.telemetryRequest hid, .errorMsg "Serial Error(R)"])
    ∧ countErrorMsgs (guiAiPollCycle (some hid) true .serialExn).2 = 1
    ∧ (∀ x, PollEvent.closePort x ∉ (guiAiPollCycle (some hid) true .serialExn).2)
    ∧ realtimePollCycle (some hid) true .serialExn
      = (none, [.telemetryRequest hid, .errorMsg "Serial Error in Reader",
                .closePort hid, .errorMsg "Disconnected due to serial error."])
    ∧ guiAiPollCycle none b o = (none, [])
    ∧ realtimePollCycle none b o = (none, [])
    ∧ hasTelemetryRequest (guiAiPollCycle none b o).2 = false
    ∧ hasTelemetryRequest (realtimePollCycle none b o).2 = false := by
  refine ⟨rfl, rfl, ?_, rfl, rfl, rfl, rfl, rfl⟩
  intro x
  simp [guiAiPollCycle]

/-- Claim C8: on the timeout path (deadline elapsing with no matching
frame — here: no data ever arrives), `_read_config_response` returns
`None`, a failed-operation result distinguishable from a parsed
configuration; and on no execution does it close the connection handle
(the trace of transport operations never contains a close). -/
theorem c8_timeout_keeps_handle (parse : List Nat → Option Config)
    (expectedId : Nat) (chunks : List (List Nat)) :
    TOp.closePort ∉ (readConfigResponse parse expectedId chunks).2
    ∧ ((∀ ch ∈ chunks, ch = ([] : List Nat)) →
        (readConfigResponse parse expectedId chunks).1 = none) := by
  constructor
  · simp only [readConfigResponse]
    intro hmem
    rcases List.mem_cons.mp hmem with h1 | hmem2
    · cases h1
    · rcases List.mem_cons.mp hmem2 with h2 | hmem3
      · cases h2
      · exact readConfigLoop_no_close parse expectedId chunks [] hmem3
  · intro hall
    simp only [readConfigResponse]
    exact readConfigLoop_all_empty parse expectedId chunks hall

/-- Witness for C8 with two empty poll intervals before the deadline. -/
theorem c8_witness :
    TOp.closePort ∉ (readConfigResponse (fun _ : List Nat => (none : Option Config))
      14 [[], []]).2
    ∧ (readConfigResponse (fun _ : List Nat => (none : Option Config)) 14 [[], []]).1
        = none := by
  have h := c8_timeout_keeps_handle (fun _ : List Nat => (none : Option Config)) 14 [[], []]
  exact ⟨h.1, h.2 (by decide)⟩

/-- Claim C9, counterexample: `serial_instance.close_serial` on a
never-opened stored connection (`ser = None`) raises `AttributeError`
instead of being a no-op. -/
theorem c9_counterexample :
    close_serial none = .error "AttributeError" := rfl

/-- Claim C9 (amended): `read.close_serial_port` is total and
idempotent — a no-op on `None` and on an already-closed handle, never
raising; `serial_instance.close_serial` is safe on an existing handle
(including an already-closed one) but raises `AttributeError` when the
stored connection is `None`. -/
theorem c9_amended (ser : Option PySerial) (s : PySerial) :
    close_serial_port (close_serial_port ser) = close_serial_port ser
    ∧ close_serial_port none = none
    ∧ close_serial_port (some { is_open := false }) = some { is_open := false }
    ∧ close_serial (some s) = .ok (some { is_open := false })
    ∧ close_serial none = .error "AttributeError" := by
  refine ⟨?_, rfl, rfl, rfl, rfl⟩
  cases ser with
  | none => rfl
  | some t =>
      obtain ⟨o⟩ := t
      cases o <;> rfl

/-- Claim C10: the blobs passed to the write worker are deep copies, so
a write invocation (successful or failed, edited or not) leaves the
stored last-read configuration cells unchanged. -/
theorem c10_loaded_configs_unchanged (h : Heap) (rm ra : Nat) (guiSel : String)
    (paused serOpen : Bool) (w1 w2 : WriteOutcome)
    (hrm : rm < h.cells.length) (hra : ra < h.cells.length) :
    (writeFlow h (some rm) (some ra) guiSel paused serOpen w1 w2).heap.getCell rm
      = h.getCell rm
    ∧ (writeFlow h (some rm) (some ra) guiSel paused serOpen w1 w2).heap.getCell ra
      = h.getCell ra := by
  obtain ⟨h1, h2, -, -⟩ := writeFlow_spec h rm ra guiSel paused serOpen w1 w2 hrm hra
  exact ⟨h1, h2⟩

/-- Witness for C10 at a concrete loaded pair of configurations. -/
theorem c10_witness :
    (writeFlow ⟨[[("MCCONF_SIGNATURE", 42), ("motor_type", 0)],
        [("APPCONF_SIGNATURE", 7)]]⟩ (some 0) (some 1) "FOC" true true
        .ok .ok).heap.getCell 0
      = Heap.getCell ⟨[[("MCCONF_SIGNATURE", 42), ("motor_type", 0)],
          [("APPCONF_SIGNATURE", 7)]]⟩ 0
    ∧ (writeFlow ⟨[[("MCCONF_SIGNATURE", 42), ("motor_type", 0)],
        [("APPCONF_SIGNATURE", 7)]]⟩ (some 0) (some 1) "FOC" true true
        .ok .ok).heap.getCell 1
      = Heap.getCell ⟨[[("MCCONF_SIGNATURE", 42), ("motor_type", 0)],
          [("APPCONF_SIGNATURE", 7)]]⟩ 1 :=
  c10_loaded_configs_unchanged
    ⟨[[("MCCONF_SIGNATURE", 42), ("motor_type", 0)], [("APPCONF_SIGNATURE", 7)]]⟩
    0 1 "FOC" true true .ok .ok (by decide) (by decide)
